import Mathlib

/-!
Shallow embedding of the digital-twin railway safety verifier
(src/digital_twin/{twin_state,conflict_detector,safety_verifier}.py,
src/railway/track_manager.py, config/safety_rules.py).

Python dicts keyed by strings are modelled as insertion-ordered association
lists (`List (String × α)`); `dget`/`dset` mirror `d.get(k)` / `d[k] = v`.
Python floats are modelled as exact rationals `ℚ`; every arithmetic
operation the verifier performs on them (subtraction, absolute value,
order comparison) is order-compatible with the float semantics on the
inputs that appear in the claims.  Timestamp fields (`datetime.now()`)
carry no information any claim depends on and are omitted.
-/

namespace RailwayTwin

/-- `d.get(k)` on an insertion-ordered string-keyed dict. -/
def dget {α : Type} : List (String × α) → String → Option α
  | [], _ => none
  | p :: rest, k => if p.1 = k then some p.2 else dget rest k

/-- `d[k] = v` on an insertion-ordered string-keyed dict: an existing key
keeps its position, a new key is appended at the end. -/
def dset {α : Type} : List (String × α) → String → α → List (String × α)
  | [], k, v => [(k, v)]
  | p :: rest, k, v => if p.1 = k then (k, v) :: rest else p :: dset rest k v

/-- `VerificationResult` enum from safety_verifier.py. -/
inductive VerificationResult : Type
  | SAFE
  | UNSAFE
deriving DecidableEq, Repr

/-- Train snapshot stored in the twin.  The verifier core reads only the
optional `eta` key (`train_state.get('eta', 0)` in check_timing_conflicts);
all other keys of the Python dict are never consulted by the verified code. -/
structure TrainSnap : Type where
  eta : Option ℚ
deriving DecidableEq, Repr

/-- Track snapshot, shaped like `Track.get_state()` output
(track_manager.py): the keys the verifier reads and writes. -/
structure TrackSnap : Type where
  track_id : String
  state : String
  allocated_to : Option String
  expected_arrival : Option ℚ
deriving DecidableEq, Repr

/-- Signal snapshot: `signal_id`, optional `track_id` binding, `state`. -/
structure SignalSnap : Type where
  signal_id : String
  track_id : Option String
  state : String
deriving DecidableEq, Repr

/-- Gate snapshot.  The verifier never reads gate entries; the fields are
those sync_state stores. -/
structure GateSnap : Type where
  gate_id : String
  state : String
deriving DecidableEq, Repr

/-- TwinState (twin_state.py): four id→snapshot mappings.  The
`last_update` timestamp is omitted (no claim depends on it). -/
structure TwinState : Type where
  trains : List (String × TrainSnap)
  tracks : List (String × TrackSnap)
  signals : List (String × SignalSnap)
  gates : List (String × GateSnap)
deriving DecidableEq, Repr

/-- `TwinState.__init__`: empty mappings. -/
def TwinState.init : TwinState := ⟨[], [], [], []⟩

def TwinState.update_train (s : TwinState) (train_id : String) (snap : TrainSnap) : TwinState :=
  { s with trains := dset s.trains train_id snap }

def TwinState.update_track (s : TwinState) (track_id : String) (snap : TrackSnap) : TwinState :=
  { s with tracks := dset s.tracks track_id snap }

def TwinState.update_signal (s : TwinState) (signal_id : String) (snap : SignalSnap) : TwinState :=
  { s with signals := dset s.signals signal_id snap }

def TwinState.update_gate (s : TwinState) (gate_id : String) (snap : GateSnap) : TwinState :=
  { s with gates := dset s.gates gate_id snap }

def TwinState.get_train (s : TwinState) (train_id : String) : Option TrainSnap :=
  dget s.trains train_id

def TwinState.get_track (s : TwinState) (track_id : String) : Option TrackSnap :=
  dget s.tracks track_id

def TwinState.get_signal (s : TwinState) (signal_id : String) : Option SignalSnap :=
  dget s.signals signal_id

def TwinState.get_gate (s : TwinState) (gate_id : String) : Option GateSnap :=
  dget s.gates gate_id

def TwinState.get_all_tracks (s : TwinState) : List TrackSnap := s.tracks.map Prod.snd

def TwinState.get_all_signals (s : TwinState) : List SignalSnap := s.signals.map Prod.snd

/-- `TwinState.clone()` deep-copies the four mappings.  At the level of
pure values the copy is the same value; the heap/reference model `Store`
below captures the aliasing content of `deepcopy`, which is what claim C5
is about. -/
def TwinState.clone (s : TwinState) : TwinState := s

/- config/safety_rules.py: the SAFETY_RULES entries the verifier reads. -/

/-- SAFETY_RULES["signal_logic"]["green_requires_track_reserved"]. -/
def green_requires_track_reserved : Bool := true

/-- SAFETY_RULES["gate_logic"]["danger_zone_distance"] (meters). -/
def danger_zone_distance : ℚ := 500

/-- `validate_signal_change(new_state, track_state)` from safety_rules.py. -/
def validate_signal_change (new_state track_state : String) : Bool :=
  if new_state = "GREEN" ∧ green_requires_track_reserved then
    track_state = "RESERVED"
  else if new_state = "RED" then true
  else if new_state = "YELLOW" then true
  else false

/-- `validate_gate_opening(nearest_train_distance)` from safety_rules.py. -/
def validate_gate_opening (nearest_train_distance : ℚ) : Bool :=
  nearest_train_distance > danger_zone_distance

/- conflict_detector.py: stateless checks over a TwinState.  (The
`detected_conflicts` cache field is written by detect_all_conflicts and
read only by get_conflict_summary, which no claim mentions, so the checks
are modelled as pure functions.) -/

/-- One entry of a conflict list: the `type`, `severity` and `message`
keys common to every conflict dict the detector builds. -/
structure Conflict : Type where
  ctype : String
  severity : String
  message : String
deriving DecidableEq, Repr

/-- Loop body of `check_track_conflicts`: walk the track snapshots in
order carrying the `track_allocations` map.  A truthy `allocated_to`
(present and non-empty, Python `if allocated_to:`) on an already-claimed
track id appends a CRITICAL conflict; otherwise the claim is recorded. -/
def check_track_conflicts_aux : List TrackSnap → List (String × String) → List Conflict
  | [], _ => []
  | tr :: rest, allocs =>
    match tr.allocated_to with
    | none => check_track_conflicts_aux rest allocs
    | some a =>
      if a = "" then check_track_conflicts_aux rest allocs
      else
        match dget allocs tr.track_id with
        | some _ =>
            ⟨"TRACK_CONFLICT", "CRITICAL",
              "Multiple trains allocated to track " ++ tr.track_id⟩
              :: check_track_conflicts_aux rest allocs
        | none => check_track_conflicts_aux rest (dset allocs tr.track_id a)

/-- `ConflictDetector.check_track_conflicts(state)`. -/
def check_track_conflicts (s : TwinState) : List Conflict :=
  check_track_conflicts_aux s.get_all_tracks []

/-- `ConflictDetector.check_route_conflicts(state, train_id, target_track)`:
true iff the target track exists and is not FREE. -/
def check_route_conflicts (s : TwinState) (_train_id target_track : String) : Bool :=
  match s.get_track target_track with
  | none => false
  | some track => track.state ≠ "FREE"

/-- `ConflictDetector.check_timing_conflicts(state, train_id, eta_seconds,
min_separation)`: true iff some other train's recorded ETA (`.get('eta', 0)`,
so a missing key reads as 0) lies strictly within `min_separation` of the
proposed ETA.  The Python default `min_separation=120.0` is passed
explicitly by the callers below. -/
def check_timing_conflicts (s : TwinState) (train_id : String) (eta_seconds : ℚ)
    (min_separation : ℚ) : Bool :=
  s.trains.any fun p =>
    (p.1 != train_id) && decide (|eta_seconds - (p.2.eta.getD 0)| < min_separation)

/-- Per-signal body of `check_signal_track_consistency`: a truthy
`track_id` binding that resolves to a track yields a CRITICAL conflict if
the track is OCCUPIED while the signal is not RED, and a HIGH conflict if
the signal is GREEN while the track is not RESERVED. -/
def signal_consistency_conflicts (s : TwinState) (sg : SignalSnap) : List Conflict :=
  match sg.track_id with
  | none => []
  | some tid =>
    if tid = "" then []
    else
      match s.get_track tid with
      | none => []
      | some tr =>
        (if tr.state = "OCCUPIED" ∧ sg.state ≠ "RED" then
          [⟨"SIGNAL_TRACK_INCONSISTENCY", "CRITICAL",
            "Signal " ++ sg.signal_id ++ " is " ++ sg.state ++ " but track "
              ++ tid ++ " is " ++ tr.state⟩]
        else [])
        ++ (if sg.state = "GREEN" ∧ tr.state ≠ "RESERVED" then
          [⟨"SIGNAL_TRACK_INCONSISTENCY", "HIGH",
            "Signal " ++ sg.signal_id ++ " is GREEN but track " ++ tid
              ++ " is not RESERVED"⟩]
        else [])

/-- `ConflictDetector.check_signal_track_consistency(state)`. -/
def check_signal_track_consistency (s : TwinState) : List Conflict :=
  s.get_all_signals.flatMap (signal_consistency_conflicts s)

/-- `ConflictDetector.detect_all_conflicts(state)`: track conflicts then
signal-track consistency, concatenated in source order. -/
def detect_all_conflicts (s : TwinState) : List Conflict :=
  check_track_conflicts s ++ check_signal_track_consistency s

/- safety_verifier.py: the SafetyVerifier class.  Its mutable state is the
twin mirror plus the append-only verification log; each verify_* method is
modelled as a function returning the (result, reason) pair together with
the verifier state after the call. -/

/-- One entry of `verification_log` (`_log_verification`); the
`timestamp` key (copied from `twin_state.last_update`) is omitted. -/
structure LogEntry : Type where
  decision_type : String
  entity_id : String
  action : String
  result : String
deriving DecidableEq, Repr

/-- SafetyVerifier state: twin mirror and verification log. -/
structure SafetyVerifier : Type where
  twin : TwinState
  log : List LogEntry
deriving DecidableEq, Repr

/-- `SafetyVerifier.__init__`: empty twin, empty log. -/
def SafetyVerifier.init : SafetyVerifier := ⟨TwinState.init, []⟩

/-- `SafetyVerifier._log_verification`: append one record to the log. -/
def SafetyVerifier.log_verification (v : SafetyVerifier)
    (decision_type entity_id action result : String) : SafetyVerifier :=
  { v with log := v.log ++ [⟨decision_type, entity_id, action, result⟩] }

/-- `SafetyVerifier.verify_track_allocation(train_id, track_id, eta_seconds)`.
Every UNSAFE branch returns before `_log_verification`, so only SAFE
verdicts reach the log. -/
def verify_track_allocation (v : SafetyVerifier) (train_id track_id : String)
    (eta_seconds : ℚ) : (VerificationResult × String) × SafetyVerifier :=
  let sim := v.twin.clone
  match sim.get_track track_id with
  | none => ((.UNSAFE, "Track " ++ track_id ++ " not found"), v)
  | some track =>
    if track.state ≠ "FREE" then
      ((.UNSAFE, "Track " ++ track_id ++ " is " ++ track.state ++ ", not FREE"), v)
    else if check_route_conflicts sim train_id track_id then
      ((.UNSAFE, "Route conflict detected for track " ++ track_id), v)
    else if check_timing_conflicts sim train_id eta_seconds 120 then
      ((.UNSAFE, "Timing conflict detected for train " ++ train_id), v)
    else
      let track2 : TrackSnap :=
        { track with state := "RESERVED", allocated_to := some train_id,
                     expected_arrival := some eta_seconds }
      let sim2 := sim.update_track track_id track2
      let conflicts := detect_all_conflicts sim2
      if conflicts ≠ [] then
        let n := conflicts.length
        ((.UNSAFE, "Conflicts detected: " ++ toString n ++ " issues"), v)
      else
        ((.SAFE, "Track allocation is safe"),
          v.log_verification "TRACK_ALLOCATION" train_id track_id "SAFE")

/-- `SafetyVerifier.verify_signal_change(signal_id, new_state, track_id)`.
An unknown signal id is replaced by a default RED signal bound to the
given track (it is not rejected); the validated change is applied to the
clone and the post-change conflict scan decides the final verdict. -/
def verify_signal_change (v : SafetyVerifier) (signal_id new_state track_id : String) :
    (VerificationResult × String) × SafetyVerifier :=
  let sim := v.twin.clone
  match sim.get_track track_id with
  | none => ((.UNSAFE, "Track " ++ track_id ++ " not found"), v)
  | some track =>
    if validate_signal_change new_state track.state = false then
      ((.UNSAFE, "Signal change violates safety rules"), v)
    else
      let signal := (sim.get_signal signal_id).getD ⟨signal_id, some track_id, "RED"⟩
      let signal2 : SignalSnap := { signal with state := new_state }
      let sim2 := sim.update_signal signal_id signal2
      let conflicts := detect_all_conflicts sim2
      if conflicts ≠ [] then
        let n := conflicts.length
        ((.UNSAFE, "Signal change causes conflicts: " ++ toString n ++ " issues"), v)
      else
        ((.SAFE, "Signal change is safe"),
          v.log_verification "SIGNAL_CHANGE" signal_id new_state "SAFE")

/-- `SafetyVerifier.verify_gate_operation(gate_id, new_state,
nearest_train_distance)`.  The gate id is never looked up in the twin;
only an OPEN request checks the danger-zone rule. -/
def verify_gate_operation (v : SafetyVerifier) (gate_id new_state : String)
    (nearest_train_distance : ℚ) : (VerificationResult × String) × SafetyVerifier :=
  if new_state = "OPEN" ∧ validate_gate_opening nearest_train_distance = false then
    ((.UNSAFE, "Train too close (" ++ toString nearest_train_distance ++ "m < "
        ++ toString danger_zone_distance ++ "m danger zone)"), v)
  else
    ((.SAFE, "Gate operation is safe"),
      v.log_verification "GATE_OPERATION" gate_id new_state "SAFE")

/-- A Python value passed through `**kwargs`: the decision parameters are
strings or numbers.  The projections are the implicit dynamic typing of
the call sites (every call the claims exercise passes matching types). -/
inductive PyVal : Type
  | strV (s : String)
  | numV (q : ℚ)
deriving DecidableEq, Repr

def PyVal.asStr : PyVal → String
  | .strV s => s
  | .numV q => toString q

def PyVal.asNum : PyVal → ℚ
  | .numV q => q
  | .strV _ => 0

/-- `kwargs[k]`: a missing key raises `KeyError(k)`, modelled as
`Except.error k`. -/
def getKw (kwargs : List (String × PyVal)) (k : String) : Except String PyVal :=
  match dget kwargs k with
  | some x => .ok x
  | none => .error k

/-- `SafetyVerifier.verify_decision(decision_type, **kwargs)`.  Keyword
arguments are extracted left to right exactly as the Python call sites
evaluate `kwargs['…']`, so the first missing required key raises. -/
def verify_decision (v : SafetyVerifier) (decision_type : String)
    (kwargs : List (String × PyVal)) :
    Except String ((VerificationResult × String) × SafetyVerifier) :=
  if decision_type = "TRACK_ALLOCATION" then do
    let a ← getKw kwargs "train_id"
    let b ← getKw kwargs "track_id"
    let c ← getKw kwargs "eta_seconds"
    pure (verify_track_allocation v a.asStr b.asStr c.asNum)
  else if decision_type = "SIGNAL_CHANGE" then do
    let a ← getKw kwargs "signal_id"
    let b ← getKw kwargs "new_state"
    let c ← getKw kwargs "track_id"
    pure (verify_signal_change v a.asStr b.asStr c.asStr)
  else if decision_type = "GATE_OPERATION" then do
    let a ← getKw kwargs "gate_id"
    let b ← getKw kwargs "new_state"
    let c ← getKw kwargs "nearest_train_distance"
    pure (verify_gate_operation v a.asStr b.asStr c.asNum)
  else
    pure ((.UNSAFE, "Unknown decision type: " ++ decision_type), v)

/-- `get_verification_stats()` return value; `nUnsafe` models the
source's third key and `safety_rate` the percentage. -/
structure VerificationStats : Type where
  total_verifications : Nat
  safe : Nat
  nUnsafe : Nat
  safety_rate : ℚ
deriving DecidableEq, Repr

/-- `SafetyVerifier.get_verification_stats()`: counts derived from the
log; rate is `safe / total * 100` guarded by `total > 0`. -/
def SafetyVerifier.get_verification_stats (v : SafetyVerifier) : VerificationStats :=
  let total := v.log.length
  let safe := (v.log.filter fun e => e.result = "SAFE").length
  ⟨total, safe, total - safe,
    if total > 0 then (safe : ℚ) / (total : ℚ) * 100 else 0⟩

/- track_manager.py: the Track entity state machine. -/

/-- `TrackState` enum. -/
inductive TrackState : Type
  | FREE
  | RESERVED
  | OCCUPIED
  | CLEARING
deriving DecidableEq, Repr

/-- config/settings.py `MIN_CLEARANCE_TIME` (seconds). -/
def MIN_CLEARANCE_TIME : ℚ := 120

/-- One entry of `Track.history` (`_log_state_change`); the `datetime.now()`
timestamp is omitted. -/
structure HistoryEntry : Type where
  state : String
  train_id : Option String
deriving DecidableEq, Repr

/-- The Track entity; `last_state_change` timestamps are omitted. -/
structure Track : Type where
  track_id : String
  state : TrackState
  allocated_to : Option String
  expected_arrival_time : Option ℚ
  clearance_time : ℚ
  history : List HistoryEntry
deriving DecidableEq, Repr

/-- `Track.__init__(track_id)`. -/
def Track.init (track_id : String) : Track :=
  ⟨track_id, .FREE, none, none, MIN_CLEARANCE_TIME, []⟩

/-- `Track._log_state_change(new_state, train_id)`. -/
def Track.log_state_change (t : Track) (new_state : String)
    (train_id : Option String) : Track :=
  { t with history := t.history ++ [⟨new_state, train_id⟩] }

/-- `Track.reserve(train_id, eta_seconds)`: returns the boolean result and
the track after the call. -/
def Track.reserve (t : Track) (train_id : String) (eta_seconds : ℚ) : Bool × Track :=
  if t.state ≠ .FREE then (false, t)
  else
    let t2 := { t with state := .RESERVED, allocated_to := some train_id,
                       expected_arrival_time := some eta_seconds }
    (true, t2.log_state_change "RESERVED" (some train_id))

/-- `Track.occupy(train_id)`. -/
def Track.occupy (t : Track) (train_id : String) : Bool × Track :=
  if t.state ≠ .RESERVED ∨ t.allocated_to ≠ some train_id then (false, t)
  else
    let t2 := { t with state := .OCCUPIED }
    (true, t2.log_state_change "OCCUPIED" (some train_id))

/-- `Track.start_clearing()`. -/
def Track.start_clearing (t : Track) : Bool × Track :=
  if t.state ≠ .OCCUPIED then (false, t)
  else
    let t2 := { t with state := .CLEARING }
    (true, t2.log_state_change "CLEARING" t.allocated_to)

/-- `Track.clear()`. -/
def Track.clear (t : Track) : Bool × Track :=
  if t.state ≠ .CLEARING then (false, t)
  else
    let train_id := t.allocated_to
    let t2 := { t with state := .FREE, allocated_to := none,
                       expected_arrival_time := none }
    (true, t2.log_state_change "FREE" train_id)

/-- One call to a Track transition method. -/
inductive TrackOp : Type
  | reserve (train_id : String) (eta_seconds : ℚ)
  | occupy (train_id : String)
  | startClearing
  | clear
deriving DecidableEq, Repr

/-- Apply one transition call, keeping the resulting track. -/
def Track.applyOp (t : Track) : TrackOp → Track
  | .reserve train_id eta_seconds => (t.reserve train_id eta_seconds).2
  | .occupy train_id => (t.occupy train_id).2
  | .startClearing => t.start_clearing.2
  | .clear => t.clear.2

/-- Run a sequence of transition calls. -/
def Track.runOps (t : Track) (ops : List TrackOp) : Track :=
  ops.foldl Track.applyOp t

/- Heap/reference model of twin_state.py for claim C5.  The Python dicts
`self.trains` … are mutable objects; `clone()` deep-copies them, so a
clone's dicts are fresh objects and `update_*` on the clone rebinds keys
of the clone's own dicts only.  The model gives each of the four dicts an
address into a per-kind heap; `clone` allocates fresh cells holding copies
and `update_*` writes at the state's own cell. -/

/-- A heap of one kind of dict object; an address is an index into
`cells`, allocation appends. -/
structure Heap (α : Type) : Type where
  cells : List α
deriving DecidableEq, Repr

def Heap.get? {α : Type} (h : Heap α) (r : Nat) : Option α := h.cells[r]?

def Heap.alloc {α : Type} (h : Heap α) (v : α) : Heap α × Nat :=
  (⟨h.cells ++ [v]⟩, h.cells.length)

def Heap.set {α : Type} (h : Heap α) (r : Nat) (v : α) : Heap α :=
  ⟨h.cells.set r v⟩

/-- The store of all dict objects, one heap per entity kind. -/
structure Store : Type where
  trainCells : Heap (List (String × TrainSnap))
  trackCells : Heap (List (String × TrackSnap))
  signalCells : Heap (List (String × SignalSnap))
  gateCells : Heap (List (String × GateSnap))
deriving DecidableEq, Repr

/-- A TwinState instance under the heap model: the addresses of its four
dict objects. -/
structure TwinRef : Type where
  trains : Nat
  tracks : Nat
  signals : Nat
  gates : Nat
deriving DecidableEq, Repr

/-- The instance's addresses all point at live cells. -/
def TwinRef.valid (st : TwinRef) (σ : Store) : Prop :=
  st.trains < σ.trainCells.cells.length ∧ st.tracks < σ.trackCells.cells.length
    ∧ st.signals < σ.signalCells.cells.length ∧ st.gates < σ.gateCells.cells.length

instance (st : TwinRef) (σ : Store) : Decidable (st.valid σ) := by
  unfold TwinRef.valid; infer_instance

def Store.get_train (σ : Store) (st : TwinRef) (train_id : String) : Option TrainSnap :=
  (σ.trainCells.get? st.trains).bind fun d => dget d train_id

def Store.get_track (σ : Store) (st : TwinRef) (track_id : String) : Option TrackSnap :=
  (σ.trackCells.get? st.tracks).bind fun d => dget d track_id

def Store.get_signal (σ : Store) (st : TwinRef) (signal_id : String) : Option SignalSnap :=
  (σ.signalCells.get? st.signals).bind fun d => dget d signal_id

def Store.get_gate (σ : Store) (st : TwinRef) (gate_id : String) : Option GateSnap :=
  (σ.gateCells.get? st.gates).bind fun d => dget d gate_id

/-- `update_train`: rebind the key in the instance's own train dict (the
incoming snapshot is deep-copied; snapshots are plain values here). -/
def Store.update_train (σ : Store) (st : TwinRef) (train_id : String)
    (snap : TrainSnap) : Store :=
  let d := dset ((σ.trainCells.get? st.trains).getD []) train_id snap
  { σ with trainCells := σ.trainCells.set st.trains d }

def Store.update_track (σ : Store) (st : TwinRef) (track_id : String)
    (snap : TrackSnap) : Store :=
  let d := dset ((σ.trackCells.get? st.tracks).getD []) track_id snap
  { σ with trackCells := σ.trackCells.set st.tracks d }

def Store.update_signal (σ : Store) (st : TwinRef) (signal_id : String)
    (snap : SignalSnap) : Store :=
  let d := dset ((σ.signalCells.get? st.signals).getD []) signal_id snap
  { σ with signalCells := σ.signalCells.set st.signals d }

def Store.update_gate (σ : Store) (st : TwinRef) (gate_id : String)
    (snap : GateSnap) : Store :=
  let d := dset ((σ.gateCells.get? st.gates).getD []) gate_id snap
  { σ with gateCells := σ.gateCells.set st.gates d }

/-- `TwinState.clone()` under the heap model: allocate four fresh dict
objects holding deep copies of the four mappings. -/
def Store.clone (σ : Store) (st : TwinRef) : Store × TwinRef :=
  let a := σ.trainCells.alloc ((σ.trainCells.get? st.trains).getD [])
  let b := σ.trackCells.alloc ((σ.trackCells.get? st.tracks).getD [])
  let c := σ.signalCells.alloc ((σ.signalCells.get? st.signals).getD [])
  let d := σ.gateCells.alloc ((σ.gateCells.get? st.gates).getD [])
  (⟨a.1, b.1, c.1, d.1⟩, ⟨a.2, b.2, c.2, d.2⟩)

/-- One `update_*` mutation performed through a TwinState instance. -/
inductive TwinOp : Type
  | updTrain (id : String) (snap : TrainSnap)
  | updTrack (id : String) (snap : TrackSnap)
  | updSignal (id : String) (snap : SignalSnap)
  | updGate (id : String) (snap : GateSnap)
deriving DecidableEq, Repr

def Store.applyTwinOp (σ : Store) (st : TwinRef) : TwinOp → Store
  | .updTrain id snap => σ.update_train st id snap
  | .updTrack id snap => σ.update_track st id snap
  | .updSignal id snap => σ.update_signal st id snap
  | .updGate id snap => σ.update_gate st id snap

def Store.applyTwinOps (σ : Store) (st : TwinRef) (ops : List TwinOp) : Store :=
  ops.foldl (fun σ2 op => σ2.applyTwinOp st op) σ

/-! ## Theorems -/

/-- C1: `get_verification_stats` computes `safe / total * 100` from the
verification log and 0 on an empty log, but `_log_verification` is only
reached on SAFE paths, so UNSAFE verdicts never enter the log.  At the
failing input — a fresh verifier handling one SAFE gate verification
(distance 1000) and one UNSAFE one (distance 200), so N = 2 and S = 1 —
the code reports `total_verifications = 1` and `safety_rate = 100`,
while the claim (and the config's `log_all_decisions: True`) requires
`safety_rate = 100*S/N = 50`. -/
theorem C1_stats_at_failing_input :
    (verify_gate_operation SafetyVerifier.init "G1" "OPEN" 1000).1.1
        = VerificationResult.SAFE
    ∧ (verify_gate_operation
        (verify_gate_operation SafetyVerifier.init "G1" "OPEN" 1000).2
        "G1" "OPEN" 200).1.1 = VerificationResult.UNSAFE
    ∧ (verify_gate_operation
        (verify_gate_operation SafetyVerifier.init "G1" "OPEN" 1000).2
        "G1" "OPEN" 200).2.get_verification_stats
        = ⟨1, 1, 0, 100⟩ := by
  refine ⟨rfl, rfl, ?_⟩
  simp [verify_gate_operation, SafetyVerifier.get_verification_stats,
    SafetyVerifier.log_verification, SafetyVerifier.init, validate_gate_opening,
    danger_zone_distance]
  norm_num

/-- C2 counterexample: the claim says every verification call naming a
gate id absent from the twin returns UNSAFE, but `verify_gate_operation`
never consults the twin's gates: on the fresh verifier (no gate "GX") an
OPEN request at distance 600 verifies SAFE. -/
theorem C2_counterexample :
    SafetyVerifier.init.twin.get_gate "GX" = none
    ∧ (verify_gate_operation SafetyVerifier.init "GX" "OPEN" 600).1.1
        = VerificationResult.SAFE := by
  exact ⟨rfl, by decide⟩

/-- C2 (amended): a track id absent from the twin makes both
`verify_track_allocation` and `verify_signal_change` return UNSAFE with
the descriptive reason "Track … not found", and no lookup raises (the
functions are total); unknown signal ids are replaced by a default RED
signal and `verify_gate_operation` never consults the gate id. -/
theorem C2_unknown_track_rejected (v : SafetyVerifier)
    (train_id signal_id new_state track_id : String) (eta : ℚ)
    (h : v.twin.get_track track_id = none) :
    (verify_track_allocation v train_id track_id eta).1
        = (VerificationResult.UNSAFE, "Track " ++ track_id ++ " not found")
    ∧ (verify_signal_change v signal_id new_state track_id).1
        = (VerificationResult.UNSAFE, "Track " ++ track_id ++ " not found") := by
  constructor <;>
    simp [verify_track_allocation, verify_signal_change, TwinState.clone, h]

/-- C2 witness: on the fresh verifier the track "P9" is unknown and both
verifiers reject with the not-found reason. -/
theorem C2_unknown_track_rejected_witness :
    SafetyVerifier.init.twin.get_track "P9" = none
    ∧ (verify_track_allocation SafetyVerifier.init "T001" "P9" 100).1
        = (VerificationResult.UNSAFE, "Track P9 not found")
    ∧ (verify_signal_change SafetyVerifier.init "S1" "GREEN" "P9").1
        = (VerificationResult.UNSAFE, "Track P9 not found") :=
  ⟨rfl,
    (C2_unknown_track_rejected SafetyVerifier.init "T001" "S1" "GREEN" "P9" 100 rfl).1,
    (C2_unknown_track_rejected SafetyVerifier.init "T001" "S1" "GREEN" "P9" 100 rfl).2⟩

/-- C4: `verify_gate_operation(gate_id, "OPEN", d)` is SAFE iff d > 500
(d = 500 → UNSAFE, d = 500.1 → SAFE, d = 499.9 → UNSAFE), and CLOSING or
CLOSED requests are always SAFE. -/
theorem C4_gate_operation (v : SafetyVerifier) (gate_id : String) (d : ℚ) :
    ((verify_gate_operation v gate_id "OPEN" d).1.1 = VerificationResult.SAFE ↔ d > 500)
    ∧ (verify_gate_operation v gate_id "CLOSING" d).1.1 = VerificationResult.SAFE
    ∧ (verify_gate_operation v gate_id "CLOSED" d).1.1 = VerificationResult.SAFE
    ∧ (verify_gate_operation SafetyVerifier.init "G1" "OPEN" 500).1.1
        = VerificationResult.UNSAFE
    ∧ (verify_gate_operation SafetyVerifier.init "G1" "OPEN" (500.1 : ℚ)).1.1
        = VerificationResult.SAFE
    ∧ (verify_gate_operation SafetyVerifier.init "G1" "OPEN" (499.9 : ℚ)).1.1
        = VerificationResult.UNSAFE := by
  refine ⟨?_, ?_, ?_, by decide,
    by norm_num [verify_gate_operation, validate_gate_opening, danger_zone_distance],
    by norm_num [verify_gate_operation, validate_gate_opening, danger_zone_distance]⟩
  · by_cases h : d > 500 <;>
      simp [verify_gate_operation, validate_gate_opening, danger_zone_distance, h]
  · simp [verify_gate_operation]
  · simp [verify_gate_operation]

/-- C9: `verify_decision` with a recognized decision type but a missing
required keyword argument raises KeyError (modelled as `Except.error`
carrying the missing key) instead of returning an UNSAFE verdict:
SIGNAL_CHANGE without `track_id` and GATE_OPERATION without
`nearest_train_distance`. -/
theorem C9_missing_kwarg_raises (v : SafetyVerifier) :
    verify_decision v "SIGNAL_CHANGE"
      [("signal_id", .strV "S1"), ("new_state", .strV "GREEN")] = .error "track_id"
    ∧ verify_decision v "GATE_OPERATION"
      [("gate_id", .strV "G1"), ("new_state", .strV "OPEN")]
        = .error "nearest_train_distance" :=
  ⟨rfl, rfl⟩

/-- The allocation invariant is preserved by every single transition call. -/
lemma allocated_iff_applyOp (t : Track) (op : TrackOp)
    (h : t.allocated_to.isSome ↔ t.state ≠ TrackState.FREE) :
    (t.applyOp op).allocated_to.isSome ↔ (t.applyOp op).state ≠ TrackState.FREE := by
  cases op <;>
    simp only [Track.applyOp, Track.reserve, Track.occupy, Track.start_clearing,
      Track.clear, Track.log_state_change] <;>
    split_ifs <;> simp_all

/-- The allocation invariant is preserved by any sequence of transition
calls. -/
lemma allocated_iff_runOps (ops : List TrackOp) (t : Track)
    (h : t.allocated_to.isSome ↔ t.state ≠ TrackState.FREE) :
    (t.runOps ops).allocated_to.isSome ↔ (t.runOps ops).state ≠ TrackState.FREE := by
  induction ops generalizing t with
  | nil => exact h
  | cons op rest ih => exact ih (t.applyOp op) (allocated_iff_applyOp t op h)

/-- C3: starting from the initial FREE track, after any sequence of
reserve / occupy / start_clearing / clear calls, `allocated_to` is set if
and only if the track's state is not FREE. -/
theorem C3_allocated_iff_not_free (track_id : String) (ops : List TrackOp) :
    ((Track.init track_id).runOps ops).allocated_to.isSome
      ↔ ((Track.init track_id).runOps ops).state ≠ TrackState.FREE :=
  allocated_iff_runOps ops (Track.init track_id) (by simp [Track.init])

/-- C6: every Track transition method returns a boolean, and on a failed
precondition it returns false and leaves the track (state, allocated_to,
expected_arrival and everything else) unchanged: reserve on a non-FREE
track, occupy when the state is not RESERVED or the allocation is for a
different train, start_clearing when not OCCUPIED, clear when not
CLEARING. -/
theorem C6_failed_transition_no_mutation (t : Track) (train_id : String) (eta : ℚ) :
    (t.state ≠ .FREE → t.reserve train_id eta = (false, t))
    ∧ (t.state ≠ .RESERVED ∨ t.allocated_to ≠ some train_id →
        t.occupy train_id = (false, t))
    ∧ (t.state ≠ .OCCUPIED → t.start_clearing = (false, t))
    ∧ (t.state ≠ .CLEARING → t.clear = (false, t)) := by
  refine ⟨fun h => ?_, fun h => ?_, fun h => ?_, fun h => ?_⟩
  · simp only [Track.reserve, if_pos h]
  · simp only [Track.occupy, if_pos h]
  · simp only [Track.start_clearing, if_pos h]
  · simp only [Track.clear, if_pos h]

/-- An OCCUPIED track allocated to train T001. -/
def trackOccupied : Track := ⟨"P1", .OCCUPIED, some "T001", some 10, 120, []⟩

/-- A RESERVED track allocated to train T001. -/
def trackReserved : Track := ⟨"P1", .RESERVED, some "T001", some 10, 120, []⟩

/-- C6 witness: a failed reserve and occupy on an OCCUPIED track and a
failed start_clearing and clear on a RESERVED track all return false and
leave the track unchanged. -/
theorem C6_failed_transition_no_mutation_witness :
    trackOccupied.reserve "T002" 50 = (false, trackOccupied)
    ∧ trackOccupied.occupy "T002" = (false, trackOccupied)
    ∧ trackReserved.start_clearing = (false, trackReserved)
    ∧ trackReserved.clear = (false, trackReserved) :=
  ⟨(C6_failed_transition_no_mutation trackOccupied "T002" 50).1 (by decide),
   (C6_failed_transition_no_mutation trackOccupied "T002" 50).2.1 (Or.inl (by decide)),
   (C6_failed_transition_no_mutation trackReserved "T002" 50).2.2.1 (by decide),
   (C6_failed_transition_no_mutation trackReserved "T002" 50).2.2.2 (by decide)⟩

/-- A verifier whose twin holds one RESERVED track T1 and nothing else. -/
def vSigClean : SafetyVerifier :=
  ⟨⟨[], [("T1", ⟨"T1", "RESERVED", some "T001", none⟩)], [], []⟩, []⟩

/-- A verifier whose twin holds a RESERVED track T1, a FREE track T2 and a
pre-existing GREEN signal S2 bound to the FREE track T2 (a standing
HIGH-severity conflict unrelated to T1). -/
def vSigConflicted : SafetyVerifier :=
  ⟨⟨[], [("T1", ⟨"T1", "RESERVED", some "T001", none⟩),
         ("T2", ⟨"T2", "FREE", none, none⟩)],
    [("S2", ⟨"S2", some "T2", "GREEN"⟩)], []⟩, []⟩

/-- A verifier whose twin holds one FREE track T1 and nothing else. -/
def vSigFree : SafetyVerifier :=
  ⟨⟨[], [("T1", ⟨"T1", "FREE", none, none⟩)], [], []⟩, []⟩

/-- C7 counterexample: the claim says a GREEN request on a RESERVED bound
track returns SAFE, but the post-change conflict scan also sees standing
conflicts elsewhere in the twin: in `vSigConflicted` the bound track T1 is
RESERVED yet `verify_signal_change` returns UNSAFE because the unrelated
signal S2 is GREEN on the FREE track T2. -/
theorem C7_counterexample :
    (dget vSigConflicted.twin.tracks "T1").map TrackSnap.state = some "RESERVED"
    ∧ (verify_signal_change vSigConflicted "S1" "GREEN" "T1").1.1
        = VerificationResult.UNSAFE := by
  exact ⟨rfl, by decide⟩

/-- C7 (amended): with new_state GREEN, `verify_signal_change` returns
UNSAFE when the bound track's state is FREE, and returns SAFE when the
bound track's state is RESERVED provided `detect_all_conflicts` on the
post-change clone reports no conflicts; RED and YELLOW always pass the
rule-validation stage (`validate_signal_change` accepts them for every
track state). -/
theorem C7_signal_change (v : SafetyVerifier) (signal_id track_id : String)
    (tr : TrackSnap) (hget : v.twin.get_track track_id = some tr) :
    (tr.state = "FREE" →
      (verify_signal_change v signal_id "GREEN" track_id).1.1
        = VerificationResult.UNSAFE)
    ∧ (tr.state = "RESERVED" →
        detect_all_conflicts (v.twin.update_signal signal_id
          { (v.twin.get_signal signal_id).getD ⟨signal_id, some track_id, "RED"⟩ with
              state := "GREEN" }) = [] →
        (verify_signal_change v signal_id "GREEN" track_id).1.1
          = VerificationResult.SAFE)
    ∧ (∀ track_state : String, validate_signal_change "RED" track_state = true
        ∧ validate_signal_change "YELLOW" track_state = true) := by
  refine ⟨fun hfree => ?_, fun hres hconf => ?_, fun ts => ?_⟩
  · simp [verify_signal_change, TwinState.clone, hget, hfree,
      validate_signal_change, green_requires_track_reserved]
  · simp [verify_signal_change, TwinState.clone, hget, hres,
      validate_signal_change, green_requires_track_reserved, hconf]
  · constructor <;> simp [validate_signal_change, green_requires_track_reserved]

/-- C7 witness: on a twin with only the RESERVED track T1, GREEN on T1
verifies SAFE; on a twin with only the FREE track T1, GREEN on T1
verifies UNSAFE. -/
theorem C7_signal_change_witness :
    (verify_signal_change vSigClean "S1" "GREEN" "T1").1.1 = VerificationResult.SAFE
    ∧ (verify_signal_change vSigFree "S1" "GREEN" "T1").1.1
        = VerificationResult.UNSAFE :=
  ⟨(C7_signal_change vSigClean "S1" "T1" ⟨"T1", "RESERVED", some "T001", none⟩
      rfl).2.1 rfl (by decide),
   (C7_signal_change vSigFree "S1" "T1" ⟨"T1", "FREE", none, none⟩ rfl).1 rfl⟩

/-- `dget` hits are members of the association list. -/
lemma dget_mem {α : Type} (l : List (String × α)) (k : String) (x : α)
    (h : dget l k = some x) : (k, x) ∈ l := by
  induction l with
  | nil => simp [dget] at h
  | cons p rest ih =>
    obtain ⟨pf, ps⟩ := p
    by_cases hk : pf = k
    · subst hk
      simp [dget] at h
      subst h
      exact List.mem_cons_self _ _
    · simp [dget, hk] at h
      exact List.mem_cons_of_mem _ (ih h)

/-- A verifier whose twin holds the FREE track P1 and a train T2 with a
recorded ETA of 200 s. -/
def vAllocClose : SafetyVerifier :=
  ⟨⟨[("T2", ⟨some 200⟩)], [("P1", ⟨"P1", "FREE", none, none⟩)], [], []⟩, []⟩

/-- A verifier whose twin holds the FREE track P1 and a train T2 with a
recorded ETA of 400 s. -/
def vAllocFar : SafetyVerifier :=
  ⟨⟨[("T2", ⟨some 400⟩)], [("P1", ⟨"P1", "FREE", none, none⟩)], [], []⟩, []⟩

/-- A verifier whose twin holds two FREE tracks, no trains at all, and a
standing GREEN signal S2 on the FREE track T2. -/
def vAllocConflicted : SafetyVerifier :=
  ⟨⟨[], [("P1", ⟨"P1", "FREE", none, none⟩), ("T2", ⟨"T2", "FREE", none, none⟩)],
    [("S2", ⟨"S2", some "T2", "GREEN"⟩)], []⟩, []⟩

/-- C8 counterexample: the claim says allocation of a FREE track with no
other train's ETA within 120 s returns SAFE, but the post-allocation
conflict scan also sees standing conflicts: in `vAllocConflicted` the
track P1 is FREE and there are no trains at all, yet
`verify_track_allocation` returns UNSAFE because the unrelated signal S2
is GREEN on the FREE track T2. -/
theorem C8_counterexample :
    (dget vAllocConflicted.twin.tracks "P1").map TrackSnap.state = some "FREE"
    ∧ vAllocConflicted.twin.trains = []
    ∧ (verify_track_allocation vAllocConflicted "T001" "P1" 180).1.1
        = VerificationResult.UNSAFE := by
  exact ⟨rfl, rfl, by decide⟩

/-- C8 (amended): on an existing FREE track, `verify_track_allocation`
returns UNSAFE when some other train's recorded ETA lies strictly within
120 s of the proposed ETA, and returns SAFE when every other train's ETA
(read as 0 when the key is missing) is at least 120 s away provided
`detect_all_conflicts` on the post-allocation clone reports no
conflicts. -/
theorem C8_track_allocation (v : SafetyVerifier) (train_id track_id : String)
    (eta : ℚ) (tr : TrackSnap) (hget : v.twin.get_track track_id = some tr)
    (hfree : tr.state = "FREE") :
    ((∃ p ∈ v.twin.trains, p.1 ≠ train_id ∧ ∃ e, p.2.eta = some e ∧ |eta - e| < 120) →
      (verify_track_allocation v train_id track_id eta).1.1
        = VerificationResult.UNSAFE)
    ∧ ((∀ p ∈ v.twin.trains, p.1 ≠ train_id → 120 ≤ |eta - p.2.eta.getD 0|) →
        detect_all_conflicts (v.twin.update_track track_id
          { tr with state := "RESERVED", allocated_to := some train_id,
                    expected_arrival := some eta }) = [] →
        (verify_track_allocation v train_id track_id eta).1.1
          = VerificationResult.SAFE) := by
  have hroute : check_route_conflicts v.twin train_id track_id = false := by
    simp [check_route_conflicts, hget, hfree]
  constructor
  · rintro ⟨p, hp, hne, e, he, hlt⟩
    have htiming : check_timing_conflicts v.twin train_id eta 120 = true := by
      rw [check_timing_conflicts, List.any_eq_true]
      exact ⟨p, hp, by simp [hne, he, hlt]⟩
    simp [verify_track_allocation, TwinState.clone, hget, hfree, hroute, htiming]
  · intro hall hconf
    have htiming : check_timing_conflicts v.twin train_id eta 120 = false := by
      rw [check_timing_conflicts, List.any_eq_false]
      intro p hp
      simp only [Bool.and_eq_true, bne_iff_ne, ne_eq, decide_eq_true_eq, not_and]
      intro hne hlt
      exact absurd hlt (not_lt.mpr (hall p hp hne))
    simp [verify_track_allocation, TwinState.clone, hget, hfree, hroute,
      htiming, hconf]

/-- C8 witness: proposing ETA 180 s next to a train recorded at 200 s
(gap 20 s) is rejected; proposing 180 s next to one at 400 s (gap 220 s)
on an otherwise clean twin is accepted. -/
theorem C8_track_allocation_witness :
    (verify_track_allocation vAllocClose "T001" "P1" 180).1.1
        = VerificationResult.UNSAFE
    ∧ (verify_track_allocation vAllocFar "T001" "P1" 180).1.1
        = VerificationResult.SAFE :=
  ⟨(C8_track_allocation vAllocClose "T001" "P1" 180 ⟨"P1", "FREE", none, none⟩
      rfl rfl).1
      ⟨("T2", ⟨some 200⟩), by decide, by decide, 200, rfl, abs_lt.mpr (by norm_num)⟩,
   (C8_track_allocation vAllocFar "T001" "P1" 180 ⟨"P1", "FREE", none, none⟩
      rfl rfl).2
      (by
        intro p hp hne
        rcases List.mem_singleton.mp hp with rfl
        exact le_abs.mpr (Or.inr (by norm_num)))
      (by decide)⟩

/-- C10: `check_timing_conflicts` reads a missing `eta` key as 0, so when
the twin holds some other train with no recorded ETA and the proposed
ETA's absolute value is below the 120 s separation, the check reports a
timing conflict and the corresponding `verify_track_allocation` call
returns UNSAFE. -/
theorem C10_missing_eta_conflict (v : SafetyVerifier)
    (train_id track_id other : String) (trn : TrainSnap) (eta : ℚ)
    (hmem : dget v.twin.trains other = some trn) (hne : other ≠ train_id)
    (hnoeta : trn.eta = none) (habs : |eta| < 120) :
    check_timing_conflicts v.twin train_id eta 120 = true
    ∧ (verify_track_allocation v train_id track_id eta).1.1
        = VerificationResult.UNSAFE := by
  have htiming : check_timing_conflicts v.twin train_id eta 120 = true := by
    rw [check_timing_conflicts, List.any_eq_true]
    refine ⟨(other, trn), dget_mem _ _ _ hmem, ?_⟩
    simp [hne, hnoeta, habs]
  refine ⟨htiming, ?_⟩
  cases htrk : v.twin.get_track track_id with
  | none => simp [verify_track_allocation, TwinState.clone, htrk]
  | some tr =>
    by_cases hst : tr.state = "FREE"
    · have hroute : check_route_conflicts v.twin train_id track_id = false := by
        simp [check_route_conflicts, htrk, hst]
      simp [verify_track_allocation, TwinState.clone, htrk, hst, hroute, htiming]
    · simp [verify_track_allocation, TwinState.clone, htrk, hst]

/-- A verifier whose twin holds the FREE track P1 and a train T9 whose
snapshot has no `eta` key. -/
def vNoEta : SafetyVerifier :=
  ⟨⟨[("T9", ⟨none⟩)], [("P1", ⟨"P1", "FREE", none, none⟩)], [], []⟩, []⟩

/-- C10 witness: with train T9 lacking an ETA, proposing ETA 60 s
(|60| < 120) reports a timing conflict and the allocation of the FREE
track P1 is rejected. -/
theorem C10_missing_eta_conflict_witness :
    check_timing_conflicts vNoEta.twin "T001" 60 120 = true
    ∧ (verify_track_allocation vNoEta "T001" "P1" 60).1.1
        = VerificationResult.UNSAFE :=
  C10_missing_eta_conflict vNoEta "T001" "P1" "T9" ⟨none⟩ 60 rfl
    (by decide) rfl (abs_lt.mpr (by norm_num))

/-- Allocating a fresh cell does not change any live cell. -/
lemma Heap.get?_alloc {α : Type} (h : Heap α) (v : α) (r : Nat)
    (hr : r < h.cells.length) : (h.alloc v).1.get? r = h.get? r := by
  simp [Heap.alloc, Heap.get?, List.getElem?_append, hr]

/-- Writing one cell does not change any other cell. -/
lemma Heap.get?_set_ne {α : Type} (h : Heap α) (i : Nat) (v : α) (r : Nat)
    (hne : r ≠ i) : (h.set i v).get? r = h.get? r := by
  simp [Heap.set, Heap.get?, List.getElem?_set_ne (Ne.symm hne)]

/-- Any sequence of `update_*` mutations performed through the instance
`cl` leaves every dict cell of a different instance `st` untouched. -/
lemma applyTwinOps_get?_ne (cl : TwinRef) (ops : List TwinOp) (σ : Store)
    (st : TwinRef) (h1 : st.trains ≠ cl.trains) (h2 : st.tracks ≠ cl.tracks)
    (h3 : st.signals ≠ cl.signals) (h4 : st.gates ≠ cl.gates) :
    (σ.applyTwinOps cl ops).trainCells.get? st.trains = σ.trainCells.get? st.trains
    ∧ (σ.applyTwinOps cl ops).trackCells.get? st.tracks = σ.trackCells.get? st.tracks
    ∧ (σ.applyTwinOps cl ops).signalCells.get? st.signals
        = σ.signalCells.get? st.signals
    ∧ (σ.applyTwinOps cl ops).gateCells.get? st.gates = σ.gateCells.get? st.gates := by
  induction ops generalizing σ with
  | nil => exact ⟨rfl, rfl, rfl, rfl⟩
  | cons op rest ih =>
    have hstep :
        (σ.applyTwinOp cl op).trainCells.get? st.trains = σ.trainCells.get? st.trains
        ∧ (σ.applyTwinOp cl op).trackCells.get? st.tracks
            = σ.trackCells.get? st.tracks
        ∧ (σ.applyTwinOp cl op).signalCells.get? st.signals
            = σ.signalCells.get? st.signals
        ∧ (σ.applyTwinOp cl op).gateCells.get? st.gates
            = σ.gateCells.get? st.gates := by
      cases op with
      | updTrain id snap => exact ⟨Heap.get?_set_ne _ _ _ _ h1, rfl, rfl, rfl⟩
      | updTrack id snap => exact ⟨rfl, Heap.get?_set_ne _ _ _ _ h2, rfl, rfl⟩
      | updSignal id snap => exact ⟨rfl, rfl, Heap.get?_set_ne _ _ _ _ h3, rfl⟩
      | updGate id snap => exact ⟨rfl, rfl, rfl, Heap.get?_set_ne _ _ _ _ h4⟩
    obtain ⟨s1, s2, s3, s4⟩ := hstep
    obtain ⟨i1, i2, i3, i4⟩ := ih (σ.applyTwinOp cl op)
    exact ⟨i1.trans s1, i2.trans s2, i3.trans s3, i4.trans s4⟩

/-- C5: for every well-formed TwinState instance, the values returned by
get_train / get_track / get_signal / get_gate on the original are the
same before and after any sequence of update_* mutations performed on the
TwinState returned by clone(). -/
theorem C5_clone_isolation (σ : Store) (st : TwinRef) (hv : st.valid σ)
    (ops : List TwinOp) (id : String) :
    ((σ.clone st).1.applyTwinOps (σ.clone st).2 ops).get_train st id
        = σ.get_train st id
    ∧ ((σ.clone st).1.applyTwinOps (σ.clone st).2 ops).get_track st id
        = σ.get_track st id
    ∧ ((σ.clone st).1.applyTwinOps (σ.clone st).2 ops).get_signal st id
        = σ.get_signal st id
    ∧ ((σ.clone st).1.applyTwinOps (σ.clone st).2 ops).get_gate st id
        = σ.get_gate st id := by
  obtain ⟨hv1, hv2, hv3, hv4⟩ := hv
  obtain ⟨m1, m2, m3, m4⟩ :=
    applyTwinOps_get?_ne (σ.clone st).2 ops (σ.clone st).1 st
      (Nat.ne_of_lt hv1) (Nat.ne_of_lt hv2) (Nat.ne_of_lt hv3) (Nat.ne_of_lt hv4)
  have t1 : (σ.clone st).1.trainCells.get? st.trains
      = σ.trainCells.get? st.trains := Heap.get?_alloc _ _ _ hv1
  have t2 : (σ.clone st).1.trackCells.get? st.tracks
      = σ.trackCells.get? st.tracks := Heap.get?_alloc _ _ _ hv2
  have t3 : (σ.clone st).1.signalCells.get? st.signals
      = σ.signalCells.get? st.signals := Heap.get?_alloc _ _ _ hv3
  have t4 : (σ.clone st).1.gateCells.get? st.gates
      = σ.gateCells.get? st.gates := Heap.get?_alloc _ _ _ hv4
  exact ⟨by simp [Store.get_train, m1, t1], by simp [Store.get_track, m2, t2],
    by simp [Store.get_signal, m3, t3], by simp [Store.get_gate, m4, t4]⟩

/-- A one-instance store: the live TwinState ⟨0,0,0,0⟩ owns one dict of
each kind. -/
def storeW : Store :=
  ⟨⟨[[("TR1", ⟨some 100⟩)]]⟩, ⟨[[("P1", ⟨"P1", "FREE", none, none⟩)]]⟩,
   ⟨[[("S1", ⟨"S1", some "P1", "RED"⟩)]]⟩, ⟨[[("G1", ⟨"G1", "CLOSED"⟩)]]⟩⟩

/-- The live instance of `storeW`. -/
def stW : TwinRef := ⟨0, 0, 0, 0⟩

/-- A mutation batch run against the clone: overwrite track P1. -/
def opsW : List TwinOp := [.updTrack "P1" ⟨"P1", "OCCUPIED", some "T001", none⟩]

/-- C5 witness: overwriting track P1 through the clone of `storeW`'s live
instance leaves `get_track` (and `get_train`) on the original unchanged. -/
theorem C5_clone_isolation_witness :
    stW.valid storeW
    ∧ ((storeW.clone stW).1.applyTwinOps (storeW.clone stW).2 opsW).get_track stW "P1"
        = storeW.get_track stW "P1"
    ∧ ((storeW.clone stW).1.applyTwinOps (storeW.clone stW).2 opsW).get_train stW "TR1"
        = storeW.get_train stW "TR1" :=
  ⟨by decide, (C5_clone_isolation storeW stW (by decide) opsW "P1").2.1,
    (C5_clone_isolation storeW stW (by decide) opsW "TR1").1⟩

end RailwayTwin
